import Mathlib

/-!
Verification of the report-generation pipeline of `src/app.py`.

The embedding models the three core functions of the program and the
button-handler orchestration:

- `get_financial_data` (src/app.py lines 30-62): fetch `stock.info` and the
  one-day price history, resolve the current price, and render the
  financial-data context template; on any provider exception return the
  warning string instead.
- `generate_report` (src/app.py lines 64-102): choose the language directive,
  assemble the prompt template, and call the generation model.
- the `generate_btn` handler (src/app.py lines 141-176): validate the ticker,
  fetch data, generate, and classify the outcome.

Modelling conventions:
- Provider numbers that are only ever interpolated into the template are
  modelled by their rendered text (`Option String`, absent = `none`), since
  Python's `str` formatting of arbitrary provider values is outside the
  embedding; the closing prices and the `currentPrice` field stay numeric
  (as `ℚ`) because the code rounds the history-derived price.  The numeral
  rendering done by the f-string is abstracted as a `showNum : ℚ → String`
  parameter.
- `datetime.now()` is modelled by an explicit `currentDate` parameter.
- The two external services are modelled as oracle inputs: the provider call
  outcome `FetchResult` (normal return or raised exception with message) and
  the generation call `gen : GenerationCall → GenResult`.
-/

namespace StockAnalyzer

/-- Concatenation of the successive pieces of a Python f-string template,
associated to the right so that each piece is a separate list entry. -/
def cat : List String → String
  | [] => ""
  | p :: ps => p ++ cat ps

/-- Occurrence of `pat` as a contiguous substring of `s`. -/
def containsStr (s pat : String) : Prop :=
  ∃ a b : String, s = a ++ (pat ++ b)

/-- Occurrence of each pattern in the list, in order, each occurrence starting
after the end of the previous one. -/
def containsInOrder (s : String) : List String → Prop
  | [] => True
  | p :: ps => ∃ a b, s = a ++ (p ++ b) ∧ containsInOrder b ps

theorem containsStr_skip (a s pat : String) (h : containsStr s pat) :
    containsStr (a ++ s) pat := by
  obtain ⟨u, v, rfl⟩ := h
  exact ⟨a ++ u, v, by rw [String.append_assoc]⟩

theorem containsStr_head2 (p q b : String) : containsStr (p ++ (q ++ b)) (p ++ q) :=
  ⟨"", b, by rw [String.empty_append, String.append_assoc]⟩

theorem ciHere (p s : String) (ps : List String) (h : containsInOrder s ps) :
    containsInOrder (p ++ s) (p :: ps) :=
  ⟨"", s, (String.empty_append _).symm, h⟩

theorem ciSkip (a s : String) (ps : List String) (h : containsInOrder s ps) :
    containsInOrder (a ++ s) ps := by
  cases ps with
  | nil => trivial
  | cons p ps =>
    obtain ⟨u, v, rfl, hv⟩ := h
    exact ⟨a ++ u, v, by rw [String.append_assoc], hv⟩

theorem containsStr_sub_iff (s pat : String) :
    containsStr s pat ↔ pat.data <:+: s.data := by
  constructor
  · rintro ⟨a, b, rfl⟩
    exact ⟨a.data, b.data, by simp [String.data_append]⟩
  · rintro ⟨l, r, h⟩
    refine ⟨⟨l⟩, ⟨r⟩, ?_⟩
    apply String.ext
    simp only [String.data_append, ← h]
    simp [List.append_assoc]

/-! ## Data model: the provider response -/

/-- A value for the current-price slot: a numeric price, or the string
literal default produced by `info.get('currentPrice', 'N/A')`. -/
inductive PriceVal where
  | num (q : ℚ)
  | na
  deriving DecidableEq

/-- Fields the code reads from `stock.info` (a loosely-typed dict,
src/app.py lines 43 and 48-58).  `currentPrice` is numeric because the price
slot participates in the rounding rule; the remaining fields are modelled by
the text they render to when interpolated, absent = `none`. -/
structure Info where
  currentPrice : Option ℚ := none
  currency : Option String := none
  marketCap : Option String := none
  trailingPE : Option String := none
  forwardPE : Option String := none
  pegRatio : Option String := none
  priceToBook : Option String := none
  revenueGrowth : Option String := none
  fiftyTwoWeekHigh : Option String := none
  fiftyTwoWeekLow : Option String := none
  sector : Option String := none
  industry : Option String := none

/-- Outcome of the `yfinance` provider calls inside the `try` block of
`get_financial_data`: either the `info` dict plus the `Close` column of the
one-day history (most recent last), or a raised exception with message `msg`. -/
inductive FetchResult where
  | ok (info : Info) (history : List ℚ)
  | err (msg : String)

/-! ## get_financial_data (src/app.py lines 30-62) -/

/-- `history['Close'].iloc[-1]`: the most recent closing price, i.e. the last
entry of the series; `none` exactly when the series is empty. -/
def lastClose : List ℚ → Option ℚ
  | [] => none
  | [x] => some x
  | _ :: x :: xs => lastClose (x :: xs)

/-- Python's `round(x, 2)` on the closing price (src/app.py line 41), modelled
on `ℚ` as rounding to an integer number of hundredths (Mathlib's `round` is
`⌊x + 1/2⌋`; the float tie-breaking of CPython is outside the embedding). -/
def round2 (q : ℚ) : ℚ := ((round (q * 100) : ℤ) : ℚ) / 100

/-- The current-price resolution of src/app.py lines 39-43: if the history is
non-empty, the rounded most recent close; otherwise
`info.get('currentPrice', 'N/A')`. -/
def current_price (history : List ℚ) (currentPrice : Option ℚ) : PriceVal :=
  match lastClose history with
  | some c => PriceVal.num (round2 c)
  | none =>
    match currentPrice with
    | some v => PriceVal.num v
    | none => PriceVal.na

/-- Rendering of the resolved price slot into the template: the `'N/A'`
default renders as itself, a number renders through the abstracted float
formatting `showNum`. -/
def renderPrice (showNum : ℚ → String) : PriceVal → String
  | PriceVal.num q => showNum q
  | PriceVal.na => "N/A"

/-- Newline plus the 8-space indentation between lines of the `data_context`
f-string (src/app.py lines 46-59). -/
def nl8 : String := "\n        "

def ctxHeader : String := "[Financial Data Context for "

def lblPrice : String := "- Current Price: "

def lblMarketCap : String := "- Market Cap: "

def lblTrailingPE : String := "- Trailing P/E: "

def lblForwardPE : String := "- Forward P/E: "

def lblPegRatio : String := "- PEG Ratio: "

def lblPriceToBook : String := "- Price/Book: "

def lblRevenueGrowth : String := "- Revenue Growth (yoy): "

def lblHigh52 : String := "- 52 Week High: "

def lblLow52 : String := "- 52 Week Low: "

def lblSector : String := "- Sector: "

def lblIndustry : String := "- Industry: "

/-- The `data_context` f-string of src/app.py lines 46-59, piece by piece:
each `info.get(key, 'N/A')` is `Option.getD` of the field, and
`info.get('currency', 'USD')` defaults to `"USD"`. -/
def data_context (showNum : ℚ → String) (ticker_symbol : String) (cp : PriceVal)
    (info : Info) : String :=
  cat [nl8, ctxHeader, ticker_symbol, "]",
       nl8, lblPrice, renderPrice showNum cp, " ", info.currency.getD "USD",
       nl8, lblMarketCap, info.marketCap.getD "N/A",
       nl8, lblTrailingPE, info.trailingPE.getD "N/A",
       nl8, lblForwardPE, info.forwardPE.getD "N/A",
       nl8, lblPegRatio, info.pegRatio.getD "N/A",
       nl8, lblPriceToBook, info.priceToBook.getD "N/A",
       nl8, lblRevenueGrowth, info.revenueGrowth.getD "N/A",
       nl8, lblHigh52, info.fiftyTwoWeekHigh.getD "N/A",
       nl8, lblLow52, info.fiftyTwoWeekLow.getD "N/A",
       nl8, lblSector, info.sector.getD "N/A",
       nl8, lblIndustry, info.industry.getD "N/A",
       nl8]

/-- The `except` branch of `get_financial_data` (src/app.py line 62): the
returned string is only this warning, built from `str(e)`. -/
def warning_context (e : String) : String :=
  "Warning: Could not fetch real-time data via yfinance (" ++ (e ++ ").")

/-- `get_financial_data` (src/app.py lines 30-62) as a function of the provider
outcome: on a normal provider return it renders the context template with the
resolved current price; on any exception it returns the warning string. -/
def get_financial_data (showNum : ℚ → String) (ticker_symbol : String)
    (fetch : FetchResult) : String :=
  match fetch with
  | FetchResult.ok info history =>
      data_context showNum ticker_symbol (current_price history info.currentPrice) info
  | FetchResult.err e => warning_context e

/-! ## generate_report (src/app.py lines 64-102) -/

def engDirective : String := "The final output MUST be in **ENGLISH**."

def chnDirective : String := "The final output MUST be in **CHINESE (简体中文)**."

/-- The language directive selection of src/app.py lines 71-74: `"English"`
selects the English directive, every other value falls to the `else` branch. -/
def lang_instruction (language : String) : String :=
  if language = "English" then engDirective else chnDirective

/-- Newline plus the 4-space indentation between lines of the prompt f-string
(src/app.py lines 77-96). -/
def nl4 : String := "\n    "

/-- A blank template line: newline, the 4 spaces of the indented empty line,
newline, and the 4-space indentation of the following line. -/
def blank4 : String := "\n    \n    "

def pRole : String := "Role: You are a world-class equity research analyst."

def pTask : String := "Task: Conduct a comprehensive, in-depth analysis of the company: "

def pCritical : String := "**CRITICAL INSTRUCTION**: "

def pContextLabel : String := "Context Data (Real-time):"

def pFrameworkLabel : String := "Analysis Framework:"

def pFramework1 : String := "1. **Fundamental Business**: Deconstruct business model, moat, and financial health."

def pFramework2 : String := "2. **Valuation & Ratios**: Analyze P/E, PEG, ROE relative to historicals and peers using the provided data."

def pFramework3 : String := "3. **Technical Analysis**: Describe current trend structure (Support/Resistance)."

def pFramework4 : String := "4. **Industry & Competition**: Macro trends, TAM, and competitive landscape."

def pFramework5 : String := "5. **Qualitative**: Management, Risks, and Catalysts."

def pFramework6 : String := "6. **Conclusion**: Buy/Hold/Sell rating, Target Price logic, and Risk Mitigation."

def pFormat : String := "Format the response with Markdown headers, bullet points for readability."

def pDateLabel : String := "Current Date: "

/-- The prompt f-string of src/app.py lines 77-96, piece by piece, with
`datetime.now().strftime` modelled by the `currentDate` parameter. -/
def generate_prompt (ticker financial_data language currentDate : String) : String :=
  cat [nl4, pRole,
       nl4, pTask, ticker, ".",
       blank4, pCritical, lang_instruction language,
       blank4, pContextLabel,
       nl4, financial_data,
       blank4, pFrameworkLabel,
       nl4, pFramework1,
       nl4, pFramework2,
       nl4, pFramework3,
       nl4, pFramework4,
       nl4, pFramework5,
       nl4, pFramework6,
       blank4, pFormat,
       nl4, pDateLabel, currentDate,
       nl4]

/-- What `generate_report` hands to the generation service: the model chosen
on line 68 and the prompt assembled on lines 77-96 and sent on line 101. -/
structure GenerationCall where
  modelName : String
  promptText : String
  deriving DecidableEq

/-- The pure part of `generate_report` (src/app.py lines 64-101): which model
is constructed and which prompt text is submitted to it. -/
def generate_report_request (ticker financial_data model_name language currentDate : String) :
    GenerationCall :=
  { modelName := model_name,
    promptText := generate_prompt ticker financial_data language currentDate }

/-- Outcome of the `model.generate_content` call (src/app.py line 101): the
returned text, or a raised exception with message `msg`. -/
inductive GenResult where
  | ok (text : String)
  | err (msg : String)

/-! ## The generate_btn handler (src/app.py lines 141-176) -/

/-- Classification of a failed request, following the spec taxonomy for the
two failure exits the handler has: the empty-ticker warning (line 143) and
the caught generation exception (line 176). -/
inductive ErrorKind where
  | invalidInput
  | generationFailure
  deriving DecidableEq

/-- Outcome of one button press: the success flag, the displayed report text
if any, and the failure classification and message if any. -/
structure ReportResult where
  success : Bool
  reportText : Option String
  errorKind : Option ErrorKind
  errorMessage : Option String
  deriving DecidableEq

/-- A run of the handler together with a record of which external calls were
issued: `fetchCalled` for the provider lookup, `genCalled` for the generation
call, `contextUsed` for the data string handed to `generate_report`, and
`promptSent` for the prompt text submitted to the model. -/
structure PipelineTrace where
  result : ReportResult
  fetchCalled : Bool
  genCalled : Bool
  contextUsed : Option String
  promptSent : Option String

/-- The `generate_btn` handler (src/app.py lines 141-176): an empty ticker is
rejected with a warning before any call; otherwise the provider is consulted
(through `get_financial_data`, which converts a provider exception into the
warning string), `generate_report` is invoked, and a raised generation
exception is caught and displayed as `Error: {e}`. -/
def run_pipeline (showNum : ℚ → String)
    (ticker_input model_version report_language currentDate : String)
    (fetch : FetchResult) (gen : GenerationCall → GenResult) : PipelineTrace :=
  if ticker_input = "" then
    { result := { success := false, reportText := none,
                  errorKind := some ErrorKind.invalidInput,
                  errorMessage := some "Please enter a ticker / 请输入代码" },
      fetchCalled := false, genCalled := false,
      contextUsed := none, promptSent := none }
  else
    let hard_data := get_financial_data showNum ticker_input fetch
    let call := generate_report_request ticker_input hard_data model_version
        report_language currentDate
    match gen call with
    | GenResult.ok text =>
        { result := { success := true, reportText := some text,
                      errorKind := none, errorMessage := none },
          fetchCalled := true, genCalled := true,
          contextUsed := some hard_data, promptSent := some call.promptText }
    | GenResult.err e =>
        { result := { success := false, reportText := none,
                      errorKind := some ErrorKind.generationFailure,
                      errorMessage := some ("Error: " ++ e) },
          fetchCalled := true, genCalled := true,
          contextUsed := some hard_data, promptSent := some call.promptText }

/-! ## Theorems -/

theorem lastClose_cons_ne_none : ∀ (xs : List ℚ) (x : ℚ), lastClose (x :: xs) ≠ none
  | [], _ => by simp [lastClose]
  | y :: ys, x => by
      rw [show lastClose (x :: y :: ys) = lastClose (y :: ys) from rfl]
      exact lastClose_cons_ne_none ys y

/-- C2: the current-price slot is resolved by priority: a non-empty history
yields the most recent close rounded to 2 decimals regardless of the direct
quote field; an empty history with a present direct field yields that field's
value unrounded; both absent yields the sentinel.  The history is empty
exactly when `lastClose` yields nothing. -/
theorem current_price_priority (history : List ℚ) (cp : Option ℚ) :
    (∀ c, lastClose history = some c →
      current_price history cp = PriceVal.num (round2 c)) ∧
    (lastClose history = none ↔ history = []) ∧
    (history = [] → ∀ v, cp = some v → current_price history cp = PriceVal.num v) ∧
    (history = [] → cp = none → current_price history cp = PriceVal.na) := by
  refine ⟨?_, ⟨?_, ?_⟩, ?_, ?_⟩
  · intro c h
    unfold current_price
    rw [h]
  · intro h
    cases history with
    | nil => rfl
    | cons x xs => exact absurd h (lastClose_cons_ne_none xs x)
  · rintro rfl
    rfl
  · rintro rfl v rfl
    rfl
  · rintro rfl rfl
    rfl

/-- C2 witness: the priority rule evaluated at concrete inputs. -/
theorem current_price_priority_witness :
    current_price [(2345 : ℚ)/1000] (some 99) = PriceVal.num (round2 ((2345 : ℚ)/1000)) ∧
    current_price ([] : List ℚ) (some 99) = PriceVal.num 99 ∧
    current_price ([] : List ℚ) (none : Option ℚ) = PriceVal.na :=
  ⟨(current_price_priority [(2345 : ℚ)/1000] (some 99)).1 _ rfl,
   (current_price_priority [] (some 99)).2.2.1 rfl 99 rfl,
   (current_price_priority [] none).2.2.2 rfl rfl⟩

/-- C10: prompt assembly is deterministic and ignores the model identifier:
the prompt text handed to the generation service is a function of ticker,
context text, language and date only, while the model name only selects the
model invoked. -/
theorem prompt_model_independent (t c m1 m2 l d : String) :
    (generate_report_request t c m1 l d).promptText
      = (generate_report_request t c m2 l d).promptText ∧
    (generate_report_request t c m1 l d).promptText = generate_prompt t c l d ∧
    (generate_report_request t c m1 l d).modelName = m1 :=
  ⟨rfl, rfl, rfl⟩

theorem containsStr_head (p b : String) : containsStr (p ++ b) p :=
  ⟨"", b, (String.empty_append _).symm⟩

/-- C9: every language value other than the exact string `"English"` selects
the Chinese directive (the catch-all `else` branch), `"English"` selects the
English one, and every assembled prompt embeds the selected directive. -/
theorem language_directive_catchall :
    (∀ l, l ≠ "English" → lang_instruction l = chnDirective) ∧
    lang_instruction "English" = engDirective ∧
    (∀ t c l d, containsStr (generate_prompt t c l d) (lang_instruction l)) := by
  refine ⟨?_, rfl, ?_⟩
  · intro l hl
    unfold lang_instruction
    rw [if_neg hl]
  · intro t c l d
    simp only [generate_prompt, cat]
    repeat (first | exact containsStr_head _ _ | apply containsStr_skip)

/-- C9 witness: a language value that is neither of the two radio options
still selects the Chinese directive, and the prompt embeds it. -/
theorem language_directive_catchall_witness :
    lang_instruction "Deutsch" = chnDirective ∧
    containsStr (generate_prompt "NVDA" "CTX" "Deutsch" "2026-10-12")
      (lang_instruction "Deutsch") :=
  ⟨language_directive_catchall.1 "Deutsch" (by decide),
   language_directive_catchall.2.2 "NVDA" "CTX" "Deutsch" "2026-10-12"⟩

/-- C5: for a fixed ticker, context text and date, the prompts assembled for
the primary language (the default radio option, which takes the `else`
branch) and the secondary language `"English"` share a common byte-identical
prefix and suffix and differ only in the language-directive substring. -/
theorem prompt_language_only_diff (t c d : String) :
    ∃ pre post : String,
      generate_prompt t c "简体中文" d = pre ++ (chnDirective ++ post) ∧
      generate_prompt t c "English" d = pre ++ (engDirective ++ post) := by
  refine ⟨cat [nl4, pRole, nl4, pTask, t, ".", blank4, pCritical],
          cat [blank4, pContextLabel, nl4, c, blank4, pFrameworkLabel,
               nl4, pFramework1, nl4, pFramework2, nl4, pFramework3,
               nl4, pFramework4, nl4, pFramework5, nl4, pFramework6,
               blank4, pFormat, nl4, pDateLabel, d, nl4], ?_, ?_⟩ <;>
    simp only [generate_prompt, cat,
      show lang_instruction "简体中文" = chnDirective from rfl,
      show lang_instruction "English" = engDirective from rfl,
      String.append_assoc, String.append_empty, String.empty_append]

/-- C3: the assembled prompt is one document containing, in order: the role
declaration, the task bound to the ticker, exactly one of the two fixed
language directives (which differ from one another), the context block
verbatim under its real-time label, the six framework parts, the formatting
instructions, and the assembly date. -/
theorem prompt_structure (t c l d : String) :
    engDirective ≠ chnDirective ∧
    (lang_instruction l = engDirective ∨ lang_instruction l = chnDirective) ∧
    containsInOrder (generate_prompt t c l d)
      [pRole, pTask, t, pCritical, lang_instruction l, pContextLabel, c,
       pFrameworkLabel, pFramework1, pFramework2, pFramework3, pFramework4,
       pFramework5, pFramework6, pFormat, pDateLabel, d] := by
  refine ⟨by decide, ?_, ?_⟩
  · unfold lang_instruction
    split
    · exact Or.inl rfl
    · exact Or.inr rfl
  · simp only [generate_prompt, cat]
    repeat (first | apply ciHere | apply ciSkip)
    trivial

/-- C4: a successfully built context block renders the tracked fields in the
fixed template order for every provider response, with no field conditionally
omitted, and renders each absent field (and the price slot when both price
sources are absent) as the literal N/A marker right after its label. -/
theorem context_fixed_order_sentinels (showNum : ℚ → String) (t : String)
    (info : Info) (history : List ℚ) :
    containsInOrder (get_financial_data showNum t (FetchResult.ok info history))
      [lblPrice, lblMarketCap, lblTrailingPE, lblForwardPE, lblPegRatio,
       lblPriceToBook, lblRevenueGrowth, lblHigh52, lblLow52, lblSector,
       lblIndustry] ∧
    (history = [] → info.currentPrice = none →
      containsStr (get_financial_data showNum t (FetchResult.ok info history))
        (lblPrice ++ "N/A")) ∧
    (info.marketCap = none →
      containsStr (get_financial_data showNum t (FetchResult.ok info history))
        (lblMarketCap ++ "N/A")) ∧
    (info.trailingPE = none →
      containsStr (get_financial_data showNum t (FetchResult.ok info history))
        (lblTrailingPE ++ "N/A")) ∧
    (info.forwardPE = none →
      containsStr (get_financial_data showNum t (FetchResult.ok info history))
        (lblForwardPE ++ "N/A")) ∧
    (info.pegRatio = none →
      containsStr (get_financial_data showNum t (FetchResult.ok info history))
        (lblPegRatio ++ "N/A")) ∧
    (info.priceToBook = none →
      containsStr (get_financial_data showNum t (FetchResult.ok info history))
        (lblPriceToBook ++ "N/A")) ∧
    (info.revenueGrowth = none →
      containsStr (get_financial_data showNum t (FetchResult.ok info history))
        (lblRevenueGrowth ++ "N/A")) ∧
    (info.fiftyTwoWeekHigh = none →
      containsStr (get_financial_data showNum t (FetchResult.ok info history))
        (lblHigh52 ++ "N/A")) ∧
    (info.fiftyTwoWeekLow = none →
      containsStr (get_financial_data showNum t (FetchResult.ok info history))
        (lblLow52 ++ "N/A")) ∧
    (info.sector = none →
      containsStr (get_financial_data showNum t (FetchResult.ok info history))
        (lblSector ++ "N/A")) ∧
    (info.industry = none →
      containsStr (get_financial_data showNum t (FetchResult.ok info history))
        (lblIndustry ++ "N/A")) := by
  refine ⟨?_, ?_, ?_, ?_, ?_, ?_, ?_, ?_, ?_, ?_, ?_, ?_⟩
  · simp only [get_financial_data, data_context, cat]
    repeat (first | apply ciHere | apply ciSkip)
    trivial
  · intro h1 h2
    simp only [get_financial_data, data_context, cat, h1, h2, current_price,
      lastClose, renderPrice]
    repeat (first | exact containsStr_head2 _ _ _ | apply containsStr_skip)
  all_goals
    intro h
    simp only [get_financial_data, data_context, cat, h, Option.getD_none]
    repeat (first | exact containsStr_head2 _ _ _ | apply containsStr_skip)

/-- C4 witness: the all-absent provider response with an empty history renders
all eleven fields, in order, each as the literal N/A marker. -/
theorem context_fixed_order_sentinels_witness :
    containsInOrder (get_financial_data (fun _ => "") "NVDA" (FetchResult.ok {} []))
      [lblPrice, lblMarketCap, lblTrailingPE, lblForwardPE, lblPegRatio,
       lblPriceToBook, lblRevenueGrowth, lblHigh52, lblLow52, lblSector,
       lblIndustry] ∧
    containsStr (get_financial_data (fun _ => "") "NVDA" (FetchResult.ok {} []))
      (lblPrice ++ "N/A") ∧
    containsStr (get_financial_data (fun _ => "") "NVDA" (FetchResult.ok {} []))
      (lblMarketCap ++ "N/A") ∧
    containsStr (get_financial_data (fun _ => "") "NVDA" (FetchResult.ok {} []))
      (lblTrailingPE ++ "N/A") ∧
    containsStr (get_financial_data (fun _ => "") "NVDA" (FetchResult.ok {} []))
      (lblForwardPE ++ "N/A") ∧
    containsStr (get_financial_data (fun _ => "") "NVDA" (FetchResult.ok {} []))
      (lblPegRatio ++ "N/A") ∧
    containsStr (get_financial_data (fun _ => "") "NVDA" (FetchResult.ok {} []))
      (lblPriceToBook ++ "N/A") ∧
    containsStr (get_financial_data (fun _ => "") "NVDA" (FetchResult.ok {} []))
      (lblRevenueGrowth ++ "N/A") ∧
    containsStr (get_financial_data (fun _ => "") "NVDA" (FetchResult.ok {} []))
      (lblHigh52 ++ "N/A") ∧
    containsStr (get_financial_data (fun _ => "") "NVDA" (FetchResult.ok {} []))
      (lblLow52 ++ "N/A") ∧
    containsStr (get_financial_data (fun _ => "") "NVDA" (FetchResult.ok {} []))
      (lblSector ++ "N/A") ∧
    containsStr (get_financial_data (fun _ => "") "NVDA" (FetchResult.ok {} []))
      (lblIndustry ++ "N/A") := by
  have h := context_fixed_order_sentinels (fun _ => "") "NVDA" {} []
  exact ⟨h.1, h.2.1 rfl rfl, h.2.2.1 rfl, h.2.2.2.1 rfl, h.2.2.2.2.1 rfl,
    h.2.2.2.2.2.1 rfl, h.2.2.2.2.2.2.1 rfl, h.2.2.2.2.2.2.2.1 rfl,
    h.2.2.2.2.2.2.2.2.1 rfl, h.2.2.2.2.2.2.2.2.2.1 rfl,
    h.2.2.2.2.2.2.2.2.2.2.1 rfl, h.2.2.2.2.2.2.2.2.2.2.2 rfl⟩

/-- C8: the currency rendered directly after the current price is the fixed
fallback USD when the provider omits the currency field, and the provider's
value when it is supplied. -/
theorem currency_fallback_usd (showNum : ℚ → String) (t : String)
    (info : Info) (history : List ℚ) :
    (info.currency = none →
      containsStr (get_financial_data showNum t (FetchResult.ok info history))
        (lblPrice ++ (renderPrice showNum (current_price history info.currentPrice) ++
          (" " ++ ("USD" ++ nl8))))) ∧
    (∀ cur, info.currency = some cur →
      containsStr (get_financial_data showNum t (FetchResult.ok info history))
        (lblPrice ++ (renderPrice showNum (current_price history info.currentPrice) ++
          (" " ++ (cur ++ nl8))))) := by
  constructor
  · intro h
    refine ⟨cat [nl8, ctxHeader, t, "]", nl8],
            cat [lblMarketCap, info.marketCap.getD "N/A",
                 nl8, lblTrailingPE, info.trailingPE.getD "N/A",
                 nl8, lblForwardPE, info.forwardPE.getD "N/A",
                 nl8, lblPegRatio, info.pegRatio.getD "N/A",
                 nl8, lblPriceToBook, info.priceToBook.getD "N/A",
                 nl8, lblRevenueGrowth, info.revenueGrowth.getD "N/A",
                 nl8, lblHigh52, info.fiftyTwoWeekHigh.getD "N/A",
                 nl8, lblLow52, info.fiftyTwoWeekLow.getD "N/A",
                 nl8, lblSector, info.sector.getD "N/A",
                 nl8, lblIndustry, info.industry.getD "N/A",
                 nl8], ?_⟩
    simp only [get_financial_data, data_context, cat, h, Option.getD_none,
      String.append_assoc, String.append_empty, String.empty_append]
  · intro cur h
    refine ⟨cat [nl8, ctxHeader, t, "]", nl8],
            cat [lblMarketCap, info.marketCap.getD "N/A",
                 nl8, lblTrailingPE, info.trailingPE.getD "N/A",
                 nl8, lblForwardPE, info.forwardPE.getD "N/A",
                 nl8, lblPegRatio, info.pegRatio.getD "N/A",
                 nl8, lblPriceToBook, info.priceToBook.getD "N/A",
                 nl8, lblRevenueGrowth, info.revenueGrowth.getD "N/A",
                 nl8, lblHigh52, info.fiftyTwoWeekHigh.getD "N/A",
                 nl8, lblLow52, info.fiftyTwoWeekLow.getD "N/A",
                 nl8, lblSector, info.sector.getD "N/A",
                 nl8, lblIndustry, info.industry.getD "N/A",
                 nl8], ?_⟩
    simp only [get_financial_data, data_context, cat, h, Option.getD_some,
      String.append_assoc, String.append_empty, String.empty_append]

/-- C8 witness: an omitted currency renders as USD; a supplied currency EUR
renders as EUR. -/
theorem currency_fallback_usd_witness :
    containsStr (get_financial_data (fun _ => "") "NVDA" (FetchResult.ok {} []))
      (lblPrice ++ (renderPrice (fun _ => "") (current_price [] none) ++
        (" " ++ ("USD" ++ nl8)))) ∧
    containsStr
      (get_financial_data (fun _ => "") "NVDA"
        (FetchResult.ok { currency := some "EUR" } []))
      (lblPrice ++ (renderPrice (fun _ => "") (current_price [] none) ++
        (" " ++ ("EUR" ++ nl8)))) :=
  ⟨(currency_fallback_usd (fun _ => "") "NVDA" {} []).1 rfl,
   (currency_fallback_usd (fun _ => "") "NVDA" { currency := some "EUR" } []).2 "EUR" rfl⟩

/-- C6: an empty ticker fails fast: the result is a failure classified as
invalid input, and neither the provider lookup nor the generation service is
invoked. -/
theorem empty_ticker_fail_fast (showNum : ℚ → String) (model lang date : String)
    (fetch : FetchResult) (gen : GenerationCall → GenResult) :
    (run_pipeline showNum "" model lang date fetch gen).result.success = false ∧
    (run_pipeline showNum "" model lang date fetch gen).result.errorKind
      = some ErrorKind.invalidInput ∧
    (run_pipeline showNum "" model lang date fetch gen).fetchCalled = false ∧
    (run_pipeline showNum "" model lang date fetch gen).genCalled = false :=
  ⟨rfl, rfl, rfl, rfl⟩

/-- C7: when the generation-service call raises, the outcome is a terminal
failure classified as a generation failure; its message carries the
underlying error message verbatim, is non-empty, and no report text is
produced. -/
theorem generation_failure_terminal (showNum : ℚ → String)
    (ticker model lang date e : String) (fetch : FetchResult)
    (gen : GenerationCall → GenResult)
    (hticker : ticker ≠ "")
    (hgen : gen (generate_report_request ticker
        (get_financial_data showNum ticker fetch) model lang date)
      = GenResult.err e) :
    (run_pipeline showNum ticker model lang date fetch gen).result.success = false ∧
    (run_pipeline showNum ticker model lang date fetch gen).result.reportText = none ∧
    (run_pipeline showNum ticker model lang date fetch gen).result.errorKind
      = some ErrorKind.generationFailure ∧
    (run_pipeline showNum ticker model lang date fetch gen).result.errorMessage
      = some ("Error: " ++ e) ∧
    containsStr ("Error: " ++ e) e ∧
    ("Error: " ++ e) ≠ "" := by
  refine ⟨?_, ?_, ?_, ?_,
    ⟨"Error: ", "", by rw [String.append_empty]⟩, ?_⟩
  · simp only [run_pipeline, if_neg hticker, hgen]
  · simp only [run_pipeline, if_neg hticker, hgen]
  · simp only [run_pipeline, if_neg hticker, hgen]
  · simp only [run_pipeline, if_neg hticker, hgen]
  · intro hcontra
    have hd : "Error: ".data ++ e.data = [] := by
      have h2 := congrArg String.data hcontra
      rw [String.data_append] at h2
      exact h2
    exact absurd (List.append_eq_nil.mp hd).1 (by decide)

/-- C7 witness: a concrete run whose generation call raises with message
quota exceeded. -/
theorem generation_failure_terminal_witness :
    (run_pipeline (fun _ => "") "NVDA" "gemini-2.5-flash-lite" "English"
        "2026-10-12" (FetchResult.err "x")
        (fun _ => GenResult.err "quota exceeded")).result.success = false ∧
    (run_pipeline (fun _ => "") "NVDA" "gemini-2.5-flash-lite" "English"
        "2026-10-12" (FetchResult.err "x")
        (fun _ => GenResult.err "quota exceeded")).result.reportText = none ∧
    (run_pipeline (fun _ => "") "NVDA" "gemini-2.5-flash-lite" "English"
        "2026-10-12" (FetchResult.err "x")
        (fun _ => GenResult.err "quota exceeded")).result.errorKind
      = some ErrorKind.generationFailure ∧
    (run_pipeline (fun _ => "") "NVDA" "gemini-2.5-flash-lite" "English"
        "2026-10-12" (FetchResult.err "x")
        (fun _ => GenResult.err "quota exceeded")).result.errorMessage
      = some ("Error: " ++ "quota exceeded") ∧
    containsStr ("Error: " ++ "quota exceeded") "quota exceeded" ∧
    ("Error: " ++ "quota exceeded") ≠ "" :=
  generation_failure_terminal (fun _ => "") "NVDA" "gemini-2.5-flash-lite"
    "English" "2026-10-12" "quota exceeded" (FetchResult.err "x")
    (fun _ => GenResult.err "quota exceeded") (by decide) rfl

set_option maxRecDepth 4000 in
/-- C1 counterexample: with ticker ZZZZINVALID and a failing provider call,
the context handed to the generation step is the bare warning string; it does
not render the tracked fields (the Market Cap label of the template does not
occur in it), whereas the all-sentinel context block does contain that
label.  Hence the context is not the all-sentinel block with a warning folded
in, contrary to the claim. -/
theorem fetch_failure_not_sentinel_block :
    (run_pipeline (fun _ => "") "ZZZZINVALID" "gemini-2.5-flash-lite" "English"
        "2026-10-12" (FetchResult.err "HTTP Error 404")
        (fun _ => GenResult.ok "report text")).contextUsed
      = some (warning_context "HTTP Error 404") ∧
    ¬ containsStr (warning_context "HTTP Error 404") lblMarketCap ∧
    containsStr (data_context (fun _ => "") "ZZZZINVALID" PriceVal.na {})
      lblMarketCap := by
  refine ⟨rfl, ?_, ?_⟩
  · rw [containsStr_sub_iff]
    decide
  · simp only [data_context, cat]
    repeat (first | exact containsStr_head _ _ | apply containsStr_skip)

/-- C1 (amended): on a provider failure the pipeline does not abort: the
generation step still runs, the context text passed to it is exactly the
fetch warning string (carrying the explicit warning note, but no rendered
metric fields), and if generation succeeds the result is a success carrying
the generated text. -/
theorem fetch_failure_degraded_continue (showNum : ℚ → String)
    (ticker model lang date e : String) (gen : GenerationCall → GenResult)
    (hticker : ticker ≠ "") :
    (run_pipeline showNum ticker model lang date (FetchResult.err e) gen).genCalled
      = true ∧
    (run_pipeline showNum ticker model lang date (FetchResult.err e) gen).contextUsed
      = some (warning_context e) ∧
    (run_pipeline showNum ticker model lang date (FetchResult.err e) gen).promptSent
      = some (generate_prompt ticker (warning_context e) lang date) ∧
    containsStr (warning_context e)
      "Warning: Could not fetch real-time data via yfinance" ∧
    (∀ txt, gen (generate_report_request ticker (warning_context e) model lang date)
        = GenResult.ok txt →
      (run_pipeline showNum ticker model lang date
          (FetchResult.err e) gen).result.success = true ∧
      (run_pipeline showNum ticker model lang date
          (FetchResult.err e) gen).result.reportText = some txt) := by
  refine ⟨?_, ?_, ?_, ?_, ?_⟩
  · cases hg : gen (generate_report_request ticker (warning_context e) model lang date) <;>
      simp only [run_pipeline, if_neg hticker, get_financial_data, hg]
  · cases hg : gen (generate_report_request ticker (warning_context e) model lang date) <;>
      simp only [run_pipeline, if_neg hticker, get_financial_data, hg]
  · cases hg : gen (generate_report_request ticker (warning_context e) model lang date) <;>
      simp only [run_pipeline, if_neg hticker, get_financial_data, hg] <;> rfl
  · refine ⟨"", " (" ++ (e ++ ")."), ?_⟩
    rw [String.empty_append]
    unfold warning_context
    rw [show ("Warning: Could not fetch real-time data via yfinance (" : String)
          = "Warning: Could not fetch real-time data via yfinance" ++ " (" from rfl,
        String.append_assoc]
  · intro txt htxt
    constructor <;>
      simp only [run_pipeline, if_neg hticker, get_financial_data, htxt]

/-- C1 (amended) witness: the ZZZZINVALID scenario with a succeeding
generation call. -/
theorem fetch_failure_degraded_continue_witness :
    (run_pipeline (fun _ => "") "ZZZZINVALID" "gemini-2.5-flash-lite" "English"
        "2026-10-12" (FetchResult.err "HTTP Error 404")
        (fun _ => GenResult.ok "report text")).genCalled = true ∧
    (run_pipeline (fun _ => "") "ZZZZINVALID" "gemini-2.5-flash-lite" "English"
        "2026-10-12" (FetchResult.err "HTTP Error 404")
        (fun _ => GenResult.ok "report text")).contextUsed
      = some (warning_context "HTTP Error 404") ∧
    (run_pipeline (fun _ => "") "ZZZZINVALID" "gemini-2.5-flash-lite" "English"
        "2026-10-12" (FetchResult.err "HTTP Error 404")
        (fun _ => GenResult.ok "report text")).promptSent
      = some (generate_prompt "ZZZZINVALID" (warning_context "HTTP Error 404")
          "English" "2026-10-12") ∧
    containsStr (warning_context "HTTP Error 404")
      "Warning: Could not fetch real-time data via yfinance" ∧
    ((run_pipeline (fun _ => "") "ZZZZINVALID" "gemini-2.5-flash-lite" "English"
        "2026-10-12" (FetchResult.err "HTTP Error 404")
        (fun _ => GenResult.ok "report text")).result.success = true ∧
     (run_pipeline (fun _ => "") "ZZZZINVALID" "gemini-2.5-flash-lite" "English"
        "2026-10-12" (FetchResult.err "HTTP Error 404")
        (fun _ => GenResult.ok "report text")).result.reportText
       = some "report text") := by
  have h := fetch_failure_degraded_continue (fun _ => "") "ZZZZINVALID"
    "gemini-2.5-flash-lite" "English" "2026-10-12" "HTTP Error 404"
    (fun _ => GenResult.ok "report text") (by decide)
  exact ⟨h.1, h.2.1, h.2.2.1, h.2.2.2.1, h.2.2.2.2 "report text" rfl⟩

end StockAnalyzer
